import Mathlib

/-!
# SkyCast weather dashboard — verification of the spec's claims

Shallow embedding of the retry wrapper, the local cache layer, the
`loadWeather` control flow, the temperature formatters, the weather-code
icon mapping and the AI/news client fallback paths of the
`skypath-weather` repository, with theorems settling the frozen claims.

JavaScript idioms are modelled explicitly:
* `a || b` on optional numbers / strings takes the first *truthy* value
  (`0`, `""`, `undefined` are falsy);
* `Math.round x` is `⌊x + 1/2⌋` (half-up, also for negative inputs);
* thrown exceptions are `Except.error`;
* external effects (the AI call, `fetch`, `JSON.parse`, `new URL(...)`)
  are oracles passed in as explicit arguments, so every function is a
  pure function of its call outcomes.
-/

namespace SkyCast

/-- JS `a || b` for two optional numeric fields: first truthy value
(`undefined` and `0` are falsy). -/
def jsOrNum (a b : Option Int) : Option Int :=
  match a with
  | some v => if v = 0 then b else some v
  | none => b

/-- JS `s || d` for an optional string against a string default
(`undefined` and `""` are falsy). -/
def jsOrStr (a : Option String) (b : String) : String :=
  match a with
  | some s => if s = "" then b else s
  | none => b

/-- JS truthiness of an optional string (`if (!apiKey)`). -/
def jsTruthyStr (a : Option String) : Bool :=
  match a with
  | some s => s != ""
  | none => false

/-- JS `Math.round`: rounds half toward positive infinity. -/
def jsRound (x : ℚ) : ℤ := ⌊x + 1/2⌋

/-! ## The retry wrapper (`src/services/geminiService.ts` 9–22,
`src/unnamed/part_002` 7–20; the two copies are identical) -/

/-- A thrown JS error as `withRetry` inspects it: an optional
`error.status` and an optional nested `error.error.status`. -/
structure JsError where
  status : Option Int
  errorStatus : Option Int
deriving DecidableEq, Repr

/-- Transience test: `const status = error?.status || error?.error?.status;
const isTransient = status === 503 || status === 504 || status === 429;` -/
def isTransient (e : JsError) : Bool :=
  match jsOrNum e.status e.errorStatus with
  | some s => s == 503 || s == 504 || s == 429
  | none => false

/-- Observable outcome of a `withRetry` run: the final result, the total
number of times `fn` was invoked, and the list of backoff delays slept
(in order). -/
structure RetryResult (α : Type) where
  result : Except JsError α
  calls : Nat
  delays : List Nat
deriving Repr

/-- Model of `withRetry(fn, retries, delay)`.  The attempts of `fn` are an oracle
`fn : Nat → Except JsError α` giving the outcome of each invocation;
`attempt` is the index of the next invocation.  Mirrors
```
try { return await fn(); } catch (error) {
  const isTransient = ...;
  if (retries > 0 && isTransient) {
    await sleep(delay);
    return withRetry(fn, retries - 1, delay * 2);
  }
  throw error;
}
``` -/
def withRetryRun {α : Type} (fn : Nat → Except JsError α) :
    Nat → Nat → Nat → RetryResult α
  | attempt, retries, delay =>
    match fn attempt with
    | Except.ok v => ⟨Except.ok v, 1, []⟩
    | Except.error e =>
      match retries with
      | 0 => ⟨Except.error e, 1, []⟩
      | Nat.succ r =>
        if isTransient e then
          let rest := withRetryRun fn (attempt + 1) r (delay * 2)
          ⟨rest.result, rest.calls + 1, delay :: rest.delays⟩
        else ⟨Except.error e, 1, []⟩

/-- Model of `withRetry(fn)` with the default arguments `retries = 3`,
`delay = 1000`. -/
def withRetry {α : Type} (fn : Nat → Except JsError α) : RetryResult α :=
  withRetryRun fn 0 3 1000

/-- The ladder of backoff delays available to a run that starts with
`retries` budget and initial `delay`: each step doubles the delay. -/
def geomDelays : Nat → Nat → List Nat
  | 0, _ => []
  | Nat.succ r, d => d :: geomDelays r (d * 2)

example : geomDelays 3 1000 = [1000, 2000, 4000] := rfl
example : isTransient ⟨some 503, none⟩ = true := rfl
example : isTransient ⟨some 500, some 503⟩ = false := rfl
example : isTransient ⟨none, some 429⟩ = true := rfl
example : (withRetry (fun _ => (Except.error ⟨some 503, none⟩ : Except JsError Nat))).calls = 4 := rfl
example : (withRetry (fun _ => (Except.error ⟨some 500, none⟩ : Except JsError Nat))).calls = 1 := rfl

/-- One-step unfolding: a successful invocation returns immediately. -/
theorem withRetryRun_ok {α : Type} {fn : Nat → Except JsError α} {attempt : Nat}
    {v : α} (h : fn attempt = Except.ok v) (retries delay : Nat) :
    withRetryRun fn attempt retries delay = ⟨Except.ok v, 1, []⟩ := by
  unfold withRetryRun
  rw [h]

/-- One-step unfolding: exhausted budget rethrows the error. -/
theorem withRetryRun_exhausted {α : Type} {fn : Nat → Except JsError α} {attempt : Nat}
    {e : JsError} (h : fn attempt = Except.error e) (delay : Nat) :
    withRetryRun fn attempt 0 delay = ⟨Except.error e, 1, []⟩ := by
  unfold withRetryRun
  rw [h]

/-- One-step unfolding: positive budget and a transient error retry with
halved budget and doubled delay, after sleeping `delay`. -/
theorem withRetryRun_retry {α : Type} {fn : Nat → Except JsError α} {attempt : Nat}
    {e : JsError} (h : fn attempt = Except.error e) (ht : isTransient e = true)
    (r delay : Nat) :
    withRetryRun fn attempt (r + 1) delay =
      ⟨(withRetryRun fn (attempt + 1) r (delay * 2)).result,
       (withRetryRun fn (attempt + 1) r (delay * 2)).calls + 1,
       delay :: (withRetryRun fn (attempt + 1) r (delay * 2)).delays⟩ := by
  conv_lhs => unfold withRetryRun
  rw [h]
  simp [ht]

/-- One-step unfolding: a non-transient error is rethrown unchanged. -/
theorem withRetryRun_nontransient {α : Type} {fn : Nat → Except JsError α} {attempt : Nat}
    {e : JsError} (h : fn attempt = Except.error e) (ht : isTransient e = false)
    (r delay : Nat) :
    withRetryRun fn attempt (r + 1) delay = ⟨Except.error e, 1, []⟩ := by
  conv_lhs => unfold withRetryRun
  rw [h]
  simp [ht]

/-- Per-run bound: a run with budget `retries` makes at most `retries + 1`
invocations, and the delays it sleeps are an initial segment of the
doubling ladder `geomDelays retries delay`. -/
theorem withRetryRun_calls_delays {α : Type} (fn : Nat → Except JsError α) :
    ∀ retries attempt delay : Nat,
      (withRetryRun fn attempt retries delay).calls ≤ retries + 1 ∧
      (withRetryRun fn attempt retries delay).delays <+: geomDelays retries delay := by
  intro retries
  induction retries with
  | zero =>
    intro attempt delay
    cases h : fn attempt with
    | ok v => rw [withRetryRun_ok h]; exact ⟨le_refl 1, by simp [geomDelays]⟩
    | error e => rw [withRetryRun_exhausted h]; exact ⟨le_refl 1, by simp [geomDelays]⟩
  | succ r ih =>
    intro attempt delay
    cases h : fn attempt with
    | ok v =>
      rw [withRetryRun_ok h]
      exact ⟨by show (1:Nat) ≤ r + 1 + 1; omega, List.nil_prefix⟩
    | error e =>
      cases ht : isTransient e with
      | false =>
        rw [withRetryRun_nontransient h ht]
        exact ⟨by show (1:Nat) ≤ r + 1 + 1; omega, List.nil_prefix⟩
      | true =>
        rw [withRetryRun_retry h ht]
        obtain ⟨hc, hp⟩ := ih (attempt + 1) (delay * 2)
        obtain ⟨t, htl⟩ := hp
        refine ⟨by simpa using Nat.succ_le_succ hc, ⟨t, ?_⟩⟩
        show (delay :: (withRetryRun fn (attempt + 1) r (delay * 2)).delays) ++ t =
          geomDelays (r + 1) delay
        simp [geomDelays, htl]

/-- C1: `withRetry` retries a failed call iff the error's effective status
(`error?.status || error?.error?.status`) is 503, 504 or 429 AND the
remaining budget is positive; in every other case the very same error is
rethrown with no further attempt and no backoff sleep. -/
theorem withRetry_retries_iff_transient {α : Type} (fn : Nat → Except JsError α)
    (attempt retries delay : Nat) (e : JsError)
    (h : fn attempt = Except.error e) :
    (0 < retries ∧ isTransient e = true →
      withRetryRun fn attempt retries delay =
        ⟨(withRetryRun fn (attempt + 1) (retries - 1) (delay * 2)).result,
         (withRetryRun fn (attempt + 1) (retries - 1) (delay * 2)).calls + 1,
         delay :: (withRetryRun fn (attempt + 1) (retries - 1) (delay * 2)).delays⟩)
    ∧ (¬(0 < retries ∧ isTransient e = true) →
      withRetryRun fn attempt retries delay = ⟨Except.error e, 1, []⟩) := by
  constructor
  · rintro ⟨hr, ht⟩
    cases retries with
    | zero => exact absurd hr (lt_irrefl 0)
    | succ r => simpa using withRetryRun_retry h ht r delay
  · intro hn
    cases retries with
    | zero => exact withRetryRun_exhausted h delay
    | succ r =>
      cases ht : isTransient e with
      | false => exact withRetryRun_nontransient h ht r delay
      | true => exact absurd ⟨Nat.succ_pos r, ht⟩ hn

/-- C1 witness: a call that fails with status 503 and budget 3 is retried
(the run recurses with budget 2 and doubled delay), at the concrete
always-503 oracle. -/
theorem withRetry_retries_iff_transient_witness :
    (0 < 3 ∧ isTransient ⟨some 503, none⟩ = true →
      withRetryRun (fun _ => (Except.error ⟨some 503, none⟩ : Except JsError Nat)) 0 3 1000 =
        ⟨(withRetryRun (fun _ => (Except.error ⟨some 503, none⟩ : Except JsError Nat)) 1 2 2000).result,
         (withRetryRun (fun _ => (Except.error ⟨some 503, none⟩ : Except JsError Nat)) 1 2 2000).calls + 1,
         1000 :: (withRetryRun (fun _ => (Except.error ⟨some 503, none⟩ : Except JsError Nat)) 1 2 2000).delays⟩)
    ∧ (¬(0 < 3 ∧ isTransient ⟨some 503, none⟩ = true) →
      withRetryRun (fun _ => (Except.error ⟨some 503, none⟩ : Except JsError Nat)) 0 3 1000 =
        ⟨Except.error ⟨some 503, none⟩, 1, []⟩) :=
  withRetry_retries_iff_transient (fun _ => Except.error ⟨some 503, none⟩) 0 3 1000
    ⟨some 503, none⟩ rfl

/-- C2: with the default arguments (`retries = 3`, `delay = 1000`) the
wrapped `fn` is invoked at most 4 times, and the slept backoff delays are
an initial segment of `[1000, 2000, 4000]` — each successive delay exactly
double the previous.  (`withRetryRun` is a total Lean function, so the
recursion terminates for every input; it is structural in `retries`.) -/
theorem withRetry_default_bounds :
    ∀ (α : Type) (fn : Nat → Except JsError α),
      (withRetry fn).calls ≤ 4 ∧ (withRetry fn).delays <+: [1000, 2000, 4000] := by
  intro α fn
  have h := withRetryRun_calls_delays fn 3 0 1000
  have hg : geomDelays 3 1000 = [1000, 2000, 4000] := rfl
  refine ⟨?_, ?_⟩
  · have := h.1
    unfold withRetry
    omega
  · have := h.2
    rw [hg] at this
    exact this

/-! ## Local cache layer (`src/App.tsx` 991–1060; `src/unnamed/part_000`
has the same `getCache` / `setCache` / `isCacheValid` and `WEATHER_TTL`) -/

/-- A stored cache record: `JSON.stringify({ data, timestamp: Date.now() })`. -/
structure CacheEntry (α : Type) where
  data : α
  timestamp : Int
deriving DecidableEq, Repr

/-- Browser `localStorage` restricted to one payload type: a partial map
from keys to parsed cache entries. -/
def Storage (α : Type) := String → Option (CacheEntry α)

/-- Model of `setCache(key, data)` executed at time `now = Date.now()`. -/
def setCache {α : Type} (store : Storage α) (key : String) (d : α) (now : Int) :
    Storage α :=
  fun k => if k = key then some ⟨d, now⟩ else store k

/-- Model of `isCacheValid(timestamp, ttl)` at time `now = Date.now()`:
`(Date.now() - timestamp) < ttl`. -/
def isCacheValid (now timestamp ttl : Int) : Bool :=
  decide (now - timestamp < ttl)

/-- Constant `WEATHER_TTL = 15 * 60 * 1000` (15 minutes). -/
def WEATHER_TTL : Int := 15 * 60 * 1000

/-- Constant `HISTORY_TTL = 24 * 60 * 60 * 1000` (24 hours). -/
def HISTORY_TTL : Int := 24 * 60 * 60 * 1000

/-- An event of the "on this day" panel (`src/types` / prompt schema). -/
structure HistoryEvent where
  year : String
  title : String
  description : String
deriving DecidableEq, Repr

/-- The cache-serve decision of `updateAiInsight`:
`!forceRefresh && cached && isCacheValid(cached.timestamp, WEATHER_TTL)`. -/
def updateAiInsightServesCache (cached : Option (CacheEntry String)) (now : Int)
    (forceRefresh : Bool) : Bool :=
  !forceRefresh && (match cached with
    | some c => isCacheValid now c.timestamp WEATHER_TTL
    | none => false)

/-- The cache-serve decision of `updateHistory`:
`!forceRefresh && cached && isCacheValid(cached.timestamp, HISTORY_TTL)`. -/
def updateHistoryServesCache (cached : Option (CacheEntry (List HistoryEvent)))
    (now : Int) (forceRefresh : Bool) : Bool :=
  !forceRefresh && (match cached with
    | some c => isCacheValid now c.timestamp HISTORY_TTL
    | none => false)

/-- C3: `setCache` stores the payload paired with the current timestamp;
`isCacheValid(timestamp, ttl)` is true iff `now - timestamp < ttl`
(strictly); the weather/insight TTL is 15 minutes and the history TTL is
24 hours, and the insight and history serve decisions validate against
exactly those TTLs. -/
theorem cache_layer_ttl_semantics (α : Type) (store : Storage α) (key : String)
    (d : α) (now ts ttl : Int) (c : CacheEntry String)
    (ch : CacheEntry (List HistoryEvent)) :
    setCache store key d now key = some ⟨d, now⟩
    ∧ (isCacheValid now ts ttl = true ↔ now - ts < ttl)
    ∧ WEATHER_TTL = 15 * 60 * 1000
    ∧ HISTORY_TTL = 24 * 60 * 60 * 1000
    ∧ updateAiInsightServesCache (some c) now false
        = isCacheValid now c.timestamp WEATHER_TTL
    ∧ updateHistoryServesCache (some ch) now false
        = isCacheValid now ch.timestamp HISTORY_TTL := by
  refine ⟨?_, ?_, rfl, rfl, ?_, ?_⟩
  · simp [setCache]
  · simp [isCacheValid]
  · simp [updateAiInsightServesCache]
  · simp [updateHistoryServesCache]

/-! ## `loadWeather` (`src/App.tsx` 1128–1157; `src/unnamed/part_000`
706–732 is identical on cache/fetch behaviour, with a different error
string and explorer refresh) -/

/-- Location part of `WeatherData` as `loadWeather` inspects it. -/
structure Location where
  name : String
  country : String
  latitude : ℚ
  longitude : ℚ
deriving DecidableEq, Repr

/-- The weather payload: its `location`, with the remaining forecast
fields (`current` / `hourly` / `daily` numeric arrays, never branched on
by `loadWeather`) abstracted into an opaque `payload` tag. -/
structure WeatherData where
  location : Location
  payload : Nat
deriving DecidableEq, Repr

/-- The React state touched by `loadWeather`:
`weather`, `loading`, `error`, plus the persisted weather cache entry. -/
structure AppState where
  weather : Option WeatherData
  loading : Bool
  error : Option String
  weatherCache : Option (CacheEntry WeatherData)
deriving DecidableEq, Repr

/-- Coordinate check `Math.abs(data.location.latitude - lat) < 0.05 &&
Math.abs(data.location.longitude - lon) < 0.05`. -/
def coordsMatch (d : WeatherData) (lat lon : ℚ) : Bool :=
  decide (|d.location.latitude - lat| < 0.05)
    && decide (|d.location.longitude - lon| < 0.05)

/-- Result of a `loadWeather` call: the new state and whether a
`fetchWeather` network call was performed. -/
structure LoadResult where
  state : AppState
  fetched : Bool
deriving Repr

/-- The fetch branch of `loadWeather`: `setLoading(true); setError(null);
try { data = await fetchWeather(...); setWeather(data);
setCache(CACHE_KEY_WEATHER, data); ... } catch { setError(msg) }
finally { setLoading(false) }`.  The `fetchWeather` outcome is the
oracle `fetchResult`. -/
def loadWeatherFetchBranch (st : AppState) (now : Int)
    (fetchResult : Except Unit WeatherData) : AppState :=
  match fetchResult with
  | Except.ok data =>
    { st with loading := false, error := none,
              weather := some data,
              weatherCache := some ⟨data, now⟩ }
  | Except.error _ =>
    { st with loading := false,
              error := some "Could not fetch weather data. Please try again." }

/-- Model of `loadWeather(lat, lon, name, country, forceRefresh)` at time `now`:
serves the cache when `!forceRefresh && cachedWeather &&
isCacheValid(cachedWeather.timestamp, WEATHER_TTL)` and the cached
coordinates roughly match, otherwise falls through to the fetch branch. -/
def loadWeather (st : AppState) (now : Int) (lat lon : ℚ)
    (name country : String) (forceRefresh : Bool)
    (fetchResult : Except Unit WeatherData) : LoadResult :=
  match st.weatherCache with
  | some cached =>
    if !forceRefresh && isCacheValid now cached.timestamp WEATHER_TTL then
      if coordsMatch cached.data lat lon then
        ⟨{ st with weather := some cached.data, loading := false }, false⟩
      else ⟨loadWeatherFetchBranch st now fetchResult, true⟩
    else ⟨loadWeatherFetchBranch st now fetchResult, true⟩
  | none => ⟨loadWeatherFetchBranch st now fetchResult, true⟩

/-- A cached payload located at coordinates (0, 0). -/
def sampleCachedData : WeatherData := ⟨⟨"Paris", "France", 0, 0⟩, 0⟩

/-- A freshly fetched payload located at coordinates (1, 0). -/
def sampleNewData : WeatherData := ⟨⟨"Lyon", "France", 1, 0⟩, 1⟩

/-- A state holding a weather cache entry written at time 0. -/
def sampleState : AppState := ⟨none, true, none, some ⟨sampleCachedData, 0⟩⟩

/-- C4 counterexample: at time 1000 the entry cached at time 0 is well
within the 15-minute TTL and `forceRefresh` is false, yet `loadWeather`
for coordinates (1, 0) — 1 degree away from the cached (0, 0) — performs
a fetch and does not display the cached payload: TTL validity alone does
not suffice. -/
theorem loadWeather_ttl_not_sufficient :
    isCacheValid 1000 0 WEATHER_TTL = true
    ∧ (loadWeather sampleState 1000 1 0 "Lyon" "France" false
        (Except.ok sampleNewData)).fetched = true
    ∧ (loadWeather sampleState 1000 1 0 "Lyon" "France" false
        (Except.ok sampleNewData)).state.weather ≠ some sampleCachedData := by
  have hcm : coordsMatch ⟨⟨"Paris", "France", 0, 0⟩, 0⟩ 1 0 = false := by
    simp [coordsMatch]
    norm_num
  refine ⟨rfl, ?_, ?_⟩
  · simp [loadWeather, sampleState, sampleCachedData, hcm, loadWeatherFetchBranch]
  · simp [loadWeather, sampleState, sampleCachedData, sampleNewData, hcm,
      loadWeatherFetchBranch, isCacheValid, WEATHER_TTL]

/-- C4 (amended): for every call of `loadWeather` with `forceRefresh`
false, if a cached weather payload exists whose timestamp is within the
fixed 15-minute TTL *and whose stored coordinates are within 0.05 degrees
of the requested ones*, then the cached payload is displayed and no new
weather fetch is performed. -/
theorem loadWeather_cache_hit (st : AppState) (now : Int) (lat lon : ℚ)
    (name country : String) (fetchResult : Except Unit WeatherData)
    (cached : CacheEntry WeatherData)
    (hc : st.weatherCache = some cached)
    (hv : isCacheValid now cached.timestamp WEATHER_TTL = true)
    (hm : coordsMatch cached.data lat lon = true) :
    (loadWeather st now lat lon name country false fetchResult).fetched = false
    ∧ (loadWeather st now lat lon name country false fetchResult).state.weather
        = some cached.data := by
  simp [loadWeather, hc, hv, hm]

/-- C4 witness: a TTL-valid entry with matching coordinates is served
without a fetch at a concrete state. -/
theorem loadWeather_cache_hit_witness :
    (loadWeather sampleState 1000 0 0 "Paris" "France" false
      (Except.ok sampleNewData)).fetched = false
    ∧ (loadWeather sampleState 1000 0 0 "Paris" "France" false
        (Except.ok sampleNewData)).state.weather = some sampleCachedData :=
  loadWeather_cache_hit sampleState 1000 0 0 "Paris" "France"
    (Except.ok sampleNewData) ⟨sampleCachedData, 0⟩ rfl rfl
    (by simp [coordsMatch, sampleCachedData]; norm_num)

/-- C5: the persisted weather cache entry is overwritten exactly when the
fetch succeeds — on success `loadWeather` writes the fetched payload
(with the current timestamp) and displays it; if `fetchWeather` throws,
the cache entry and the displayed weather are unchanged and only the
error message is set; and a call that performs no fetch never writes the
cache. -/
theorem loadWeather_overwrite_on_success (st : AppState) (now : Int)
    (lat lon : ℚ) (name country : String) (force : Bool) (d : WeatherData) :
    ((loadWeather st now lat lon name country force (Except.ok d)).fetched = true →
      (loadWeather st now lat lon name country force (Except.ok d)).state.weatherCache
          = some ⟨d, now⟩
      ∧ (loadWeather st now lat lon name country force (Except.ok d)).state.weather
          = some d
      ∧ (loadWeather st now lat lon name country force (Except.ok d)).state.error
          = none)
    ∧ (∀ e : Unit,
      (loadWeather st now lat lon name country force (Except.error e)).fetched = true →
      (loadWeather st now lat lon name country force (Except.error e)).state.weatherCache
          = st.weatherCache
      ∧ (loadWeather st now lat lon name country force (Except.error e)).state.weather
          = st.weather
      ∧ (loadWeather st now lat lon name country force (Except.error e)).state.error
          = some "Could not fetch weather data. Please try again.")
    ∧ ((loadWeather st now lat lon name country force (Except.ok d)).fetched = false →
      (loadWeather st now lat lon name country force (Except.ok d)).state.weatherCache
          = st.weatherCache)
    ∧ (∀ e : Unit,
      (loadWeather st now lat lon name country force (Except.error e)).fetched = false →
      (loadWeather st now lat lon name country force (Except.error e)).state.weatherCache
          = st.weatherCache) := by
  unfold loadWeather
  cases hC : st.weatherCache with
  | none => simp [loadWeatherFetchBranch, hC]
  | some cached =>
    cases h1 : (!force && isCacheValid now cached.timestamp WEATHER_TTL) with
    | false => simp [h1, loadWeatherFetchBranch, hC]
    | true =>
      cases h2 : coordsMatch cached.data lat lon with
      | false => simp [h1, h2, loadWeatherFetchBranch, hC]
      | true => simp [h1, h2, loadWeatherFetchBranch, hC]

/-- C5 witness: with `forceRefresh` true a fetch is performed, and a
successful fetch at a concrete state overwrites the cache entry with the
new payload and the current time. -/
theorem loadWeather_overwrite_on_success_witness :
    (loadWeather sampleState 1000 1 0 "Lyon" "France" true
      (Except.ok sampleNewData)).state.weatherCache = some ⟨sampleNewData, 1000⟩ :=
  ((loadWeather_overwrite_on_success sampleState 1000 1 0 "Lyon" "France" true
    sampleNewData).1 (by decide)).1

/-! ## Temperature formatting (`src/App.tsx` 1089–1092 and 1557,
`src/services/geminiService.ts` 27–28) -/

/-- The persisted temperature unit, `'C' | 'F'`. -/
inductive TempUnit
  | C
  | F
deriving DecidableEq, Repr

/-- App formatter `formatTemp`: `const value = unit === 'F' ? (celsius * 9) / 5 + 32
: celsius; return Math.round(value);` -/
def formatTemp (unit : TempUnit) (celsius : ℚ) : ℤ :=
  let value := if unit = TempUnit.F then celsius * 9 / 5 + 32 else celsius
  jsRound value

/-- Gemini-service prompt converter `convert`: `unit === 'F' ?
Math.round((c * 9) / 5 + 32) : Math.round(c)`. -/
def convert (unit : TempUnit) (c : ℚ) : ℤ :=
  if unit = TempUnit.F then jsRound (c * 9 / 5 + 32) else jsRound c

/-- Inline daily-forecast converter `formatDailyTemp`:
`unit === 'F' ? Math.round((c * 9) / 5 + 32) : Math.round(c)`. -/
def formatDailyTemp (unit : TempUnit) (c : ℚ) : ℤ :=
  if unit = TempUnit.F then jsRound (c * 9 / 5 + 32) else jsRound c

/-- C6: unit conversion is uniform — `formatTemp` returns
`Math.round(celsius)` for unit `'C'` and `Math.round((celsius*9)/5 + 32)`
for unit `'F'`, for every celsius input. -/
theorem formatTemp_unit_conversion :
    ∀ c : ℚ, formatTemp TempUnit.C c = jsRound c
      ∧ formatTemp TempUnit.F c = jsRound (c * 9 / 5 + 32) := by
  intro c
  constructor <;> simp [formatTemp]

/-- C10: the three temperature converters are extensionally equal for
every celsius value and both units. -/
theorem temp_converters_agree :
    ∀ (u : TempUnit) (c : ℚ),
      formatDailyTemp u c = convert u c ∧ convert u c = formatTemp u c := by
  intro u c
  cases u <;> simp [formatDailyTemp, convert, formatTemp]

/-! ## Weather-code icon mapping (`src/api/news.ts` 13–27,
`WeatherIconLarge`) -/

/-- The FontAwesome class chain of `WeatherIconLarge`:
`let iconClass = "fa-sun"; if (code === 0) ... else if (code >= 1 && code
<= 3) ... else if (code >= 95) ...`. -/
def weatherIconClass (code : ℤ) : String :=
  if code = 0 then "fa-sun text-yellow-400"
  else if 1 ≤ code ∧ code ≤ 3 then "fa-cloud-sun text-gray-200"
  else if 45 ≤ code ∧ code ≤ 48 then "fa-smog text-slate-300"
  else if 51 ≤ code ∧ code ≤ 67 then "fa-cloud-showers-heavy text-blue-400"
  else if 71 ≤ code ∧ code ≤ 77 then "fa-snowflake text-white"
  else if 80 ≤ code ∧ code ≤ 82 then "fa-cloud-rain text-blue-500"
  else if 95 ≤ code then "fa-bolt-lightning text-yellow-300"
  else "fa-sun"

example : weatherIconClass 50 = "fa-sun" := rfl
example : weatherIconClass 96 = "fa-bolt-lightning text-yellow-300" := rfl

/-- C7: the icon mapping is total and determined solely by the numeric
code ranges — 0 ↦ sun, 1–3 ↦ cloud-sun, 45–48 ↦ smog, 51–67 ↦ heavy
showers, 71–77 ↦ snowflake, 80–82 ↦ rain, ≥ 95 ↦ lightning, and every
integer code outside these ranges (4–44, 49–50, 68–70, 78–79, 83–94 and
all negative codes) falls back to the default sun icon. -/
theorem weatherIconClass_total_ranges :
    weatherIconClass 0 = "fa-sun text-yellow-400"
    ∧ (∀ k : Fin 3, weatherIconClass (1 + (k.val : ℤ)) = "fa-cloud-sun text-gray-200")
    ∧ (∀ k : Fin 4, weatherIconClass (45 + (k.val : ℤ)) = "fa-smog text-slate-300")
    ∧ (∀ k : Fin 17, weatherIconClass (51 + (k.val : ℤ)) = "fa-cloud-showers-heavy text-blue-400")
    ∧ (∀ k : Fin 7, weatherIconClass (71 + (k.val : ℤ)) = "fa-snowflake text-white")
    ∧ (∀ k : Fin 3, weatherIconClass (80 + (k.val : ℤ)) = "fa-cloud-rain text-blue-500")
    ∧ (∀ n : ℕ, weatherIconClass (95 + (n : ℤ)) = "fa-bolt-lightning text-yellow-300")
    ∧ (∀ k : Fin 41, weatherIconClass (4 + (k.val : ℤ)) = "fa-sun")
    ∧ (∀ k : Fin 2, weatherIconClass (49 + (k.val : ℤ)) = "fa-sun")
    ∧ (∀ k : Fin 3, weatherIconClass (68 + (k.val : ℤ)) = "fa-sun")
    ∧ (∀ k : Fin 2, weatherIconClass (78 + (k.val : ℤ)) = "fa-sun")
    ∧ (∀ k : Fin 12, weatherIconClass (83 + (k.val : ℤ)) = "fa-sun")
    ∧ (∀ n : ℕ, weatherIconClass (-1 - (n : ℤ)) = "fa-sun") := by
  refine ⟨rfl, ?_, ?_, ?_, ?_, ?_, ?_, ?_, ?_, ?_, ?_, ?_, ?_⟩
  · intro k; fin_cases k <;> rfl
  · intro k; fin_cases k <;> rfl
  · intro k; fin_cases k <;> rfl
  · intro k; fin_cases k <;> rfl
  · intro k; fin_cases k <;> rfl
  · intro n
    unfold weatherIconClass
    rw [if_neg (by omega), if_neg (by omega), if_neg (by omega),
      if_neg (by omega), if_neg (by omega), if_neg (by omega),
      if_pos (by omega)]
  · intro k; fin_cases k <;> rfl
  · intro k; fin_cases k <;> rfl
  · intro k; fin_cases k <;> rfl
  · intro k; fin_cases k <;> rfl
  · intro k; fin_cases k <;> rfl
  · intro n
    unfold weatherIconClass
    rw [if_neg (by omega), if_neg (by omega), if_neg (by omega),
      if_neg (by omega), if_neg (by omega), if_neg (by omega),
      if_neg (by omega)]

/-! ## Generative-AI and news clients (`src/services/geminiService.ts`,
`src/services/newsService.ts`, `src/unnamed/part_001` / `part_002` /
`part_003`).

Each exported function wraps its network call in `try/catch`; the call
outcome (after `withRetry`, where used) is the `callResult` oracle, and
`JSON.parse` / `new URL(...).hostname` are the `parse` / `host` oracles.
Prompt construction (which only feeds the model) is not modelled. -/

/-- Web grounding reference (`chunk.web`). -/
structure WebInfo where
  title : Option String
  uri : Option String
deriving DecidableEq, Repr

/-- Maps grounding reference (`chunk.maps`). -/
structure MapsInfo where
  title : Option String
  uri : Option String
deriving DecidableEq, Repr

/-- One entry of `response.candidates?.[0]?.groundingMetadata?.groundingChunks`. -/
structure Chunk where
  web : Option WebInfo
  maps : Option MapsInfo
deriving DecidableEq, Repr

/-- The parts of a `GenerateContentResponse` the clients read:
`response.text` (possibly undefined) and the grounding chunks (possibly
undefined). -/
structure GenResponse where
  text : Option String
  chunks : Option (List Chunk)
deriving DecidableEq, Repr

/-- Model of `getAIInsight`: returns `response.text || "No AI insight available at
the moment."`, or the coffee-break fallback if the (retried) call threw. -/
def getAIInsight (callResult : Except JsError GenResponse) : String :=
  match callResult with
  | Except.error _ =>
    "The AI weather specialist is currently taking a coffee break. Dress comfortably!"
  | Except.ok resp => jsOrStr resp.text "No AI insight available at the moment."

/-- The daily quote `{ text, author }`. -/
structure Quote where
  text : String
  author : String
deriving DecidableEq, Repr

/-- The literal JSON default fed to `JSON.parse` when `response.text` is
falsy in `fetchDailyQuote`. -/
def dailyQuoteDefaultJson : String :=
  "\x7b\"text\": \"Even the darkest clouds are eventually scattered by the sun.\", \"author\": \"SkyCast AI\"\x7d"

/-- Model of `fetchDailyQuote`: parses `response.text` (or the default JSON); any
throw — of the call or of `JSON.parse` — is caught by the same `catch`
and yields the Emerson fallback quote. -/
def fetchDailyQuote (parse : String → Except Unit Quote)
    (callResult : Except JsError GenResponse) : Quote :=
  match callResult with
  | Except.error _ =>
    ⟨"Nature always wears the colors of the spirit.", "Ralph Waldo Emerson"⟩
  | Except.ok resp =>
    match parse (jsOrStr resp.text dailyQuoteDefaultJson) with
    | Except.ok q => q
    | Except.error _ =>
      ⟨"Nature always wears the colors of the spirit.", "Ralph Waldo Emerson"⟩

/-- Model of `fetchHistoryOnThisDay`: JSON-parses `response.text` (default "[]"); a parse
failure is caught by the inner `catch` and a call failure by the outer
one, both returning `[]`. -/
def fetchHistoryOnThisDay (parse : String → Except Unit (List HistoryEvent))
    (callResult : Except JsError GenResponse) : List HistoryEvent :=
  match callResult with
  | Except.error _ => []
  | Except.ok resp =>
    match parse (jsOrStr resp.text "[]") with
    | Except.ok events => events
    | Except.error _ => []

/-- A movie listing `{ title, theaters, description? }`. -/
structure Movie where
  title : String
  theaters : List String
  description : Option String
deriving DecidableEq, Repr

/-- Model of `fetchMoviesNearby`: same error shape as `fetchHistoryOnThisDay`. -/
def fetchMoviesNearby (parse : String → Except Unit (List Movie))
    (callResult : Except JsError GenResponse) : List Movie :=
  match callResult with
  | Except.error _ => []
  | Except.ok resp =>
    match parse (jsOrStr resp.text "[]") with
    | Except.ok movies => movies
    | Except.error _ => []

/-- A maps place `{ title, uri }`. -/
structure Place where
  title : String
  uri : String
deriving DecidableEq, Repr

/-- Model of `fetchNearbyPlaces`: text is `response.text || "Exploring local
${category}..."`; places collect the chunks with `chunk.maps?.uri`; a
thrown call yields the `Unable to load` fallback with an empty list.
(The `lat`/`lon` arguments only feed the prompt and are not modelled.) -/
def fetchNearbyPlaces (category : String)
    (callResult : Except JsError GenResponse) : String × List Place :=
  match callResult with
  | Except.error _ => ("Unable to load nearby " ++ category ++ ".", [])
  | Except.ok resp =>
    let text := jsOrStr resp.text ("Exploring local " ++ category ++ "...")
    let places := (resp.chunks.getD []).filterMap fun ch =>
      match ch.maps with
      | some m =>
        match m.uri with
        | some u => some (⟨jsOrStr m.title "View on Maps", u⟩ : Place)
        | none => none
      | none => none
    (text, places)

/-- A news item `{ title, snippet, url, source, date }` (`url` kept
optional because `getAIIntelligence` copies `chunk.web.uri` unchecked). -/
structure NewsItem where
  title : String
  snippet : String
  url : Option String
  source : String
  date : String
deriving DecidableEq, Repr

/-- One article of the NewsAPI body. -/
structure Article where
  title : String
  description : Option String
  content : Option String
  url : String
  sourceName : String
  publishedAt : String
deriving DecidableEq, Repr

/-- The `fetch` response as `fetchLocationNews` reads it: the `ok` flag
and the outcome of `response.json()`, whose `articles` field may be
absent (`data.articles || []`). -/
structure HttpResponse where
  ok : Bool
  json : Except Unit (Option (List Article))
deriving Repr

/-- Model of `fetchLocationNews` (`src/services/newsService.ts`): missing key →
`[]`; any throw (fetch rejection, `!response.ok`, JSON failure) is caught
and returns `[]`; otherwise maps the articles. -/
def fetchLocationNews (apiKey : Option String)
    (fetchResult : Except Unit HttpResponse) : List NewsItem :=
  if !jsTruthyStr apiKey then []
  else
    match fetchResult with
    | Except.error _ => []
    | Except.ok resp =>
      if !resp.ok then []
      else
        match resp.json with
        | Except.error _ => []
        | Except.ok arts =>
          (arts.getD []).map fun a =>
            ⟨a.title,
             jsOrStr a.description
               (jsOrStr a.content "Read more about this atmospheric event."),
             some a.url, a.sourceName, a.publishedAt⟩

/-- Model of `getAIIntelligence` (`src/unnamed/part_002` 61–102): builds one item
per grounding chunk with a `web` part, snippets taken from the filtered
text lines by chunk index, then `newsItems.slice(0, 4)`.  `nowIso` is
`new Date().toISOString()`. -/
def getAIIntelligence (nowIso : String)
    (callResult : Except JsError GenResponse) : List NewsItem :=
  match callResult with
  | Except.error _ => []
  | Except.ok resp =>
    let textLines := ((jsOrStr resp.text "").splitOn "\n").filter
      (fun l => 5 < l.trim.length)
    let newsItems := (resp.chunks.getD []).enum.filterMap fun p =>
      match p.2.web with
      | some w =>
        some (⟨jsOrStr w.title ("Intelligence Report " ++ toString (p.1 + 1)),
               jsOrStr (textLines.get? p.1)
                 "Full telemetry report available via source link.",
               w.uri, "AI Search Grounding", nowIso⟩ : NewsItem)
      | none => none
    newsItems.take 4

/-- Model of the `fetchWeatherNews` of `src/unnamed/part_001` (39–73): items from the
chunks with `chunk.web?.uri`, then `news.slice(0, 4)`.  `host u` models
`new URL(u).hostname.replace("www.", "")`. -/
def fetchWeatherNewsGroundingOnly (host : String → String)
    (callResult : Except JsError GenResponse) : List NewsItem :=
  match callResult with
  | Except.error _ => []
  | Except.ok resp =>
    let news := (resp.chunks.getD []).filterMap fun ch =>
      match ch.web with
      | some w =>
        match w.uri with
        | some u =>
          some (⟨jsOrStr w.title "Local Weather Update",
                 "Latest update on local conditions and environment.",
                 some u, host u, "Live"⟩ : NewsItem)
        | none => none
      | none => none
    news.take 4

/-- Model of the `fetchWeatherNews` of `src/unnamed/part_003` (45–96): JSON-parses the
schema response; if parsing fails, falls back to mapping every grounding
chunk and `slice(0, 4)`. -/
def fetchWeatherNewsSchema (parse : String → Except Unit (List NewsItem))
    (host : String → String)
    (callResult : Except JsError GenResponse) : List NewsItem :=
  match callResult with
  | Except.error _ => []
  | Except.ok resp =>
    match parse (jsOrStr resp.text "[]") with
    | Except.ok news => news
    | Except.error _ =>
      match resp.chunks with
      | some chunks =>
        (chunks.map fun ch =>
          (⟨jsOrStr (ch.web.bind WebInfo.title) "Weather Update",
            "Click to read the latest update on local weather conditions.",
            some (jsOrStr (ch.web.bind WebInfo.uri) "#"),
            host (jsOrStr (ch.web.bind WebInfo.uri) "https://google.com"),
            "Just now"⟩ : NewsItem)).take 4
      | none => []

/-- C8: no exception escapes any exported AI/news client — each returns
its typed fallback on a thrown call, and on a failed JSON parse of the
model response: `getAIInsight` a fixed string, `fetchDailyQuote` a fixed
quote, `fetchHistoryOnThisDay` / `fetchMoviesNearby` /
`fetchLocationNews` the empty list, `fetchNearbyPlaces` an
`Unable to load` text with an empty places list. -/
theorem client_error_fallbacks :
    (∀ e : JsError, getAIInsight (Except.error e)
      = "The AI weather specialist is currently taking a coffee break. Dress comfortably!")
    ∧ (∀ (parse : String → Except Unit Quote) (e : JsError),
      fetchDailyQuote parse (Except.error e)
        = ⟨"Nature always wears the colors of the spirit.", "Ralph Waldo Emerson"⟩)
    ∧ (∀ resp : GenResponse,
      fetchDailyQuote (fun _ => Except.error ()) (Except.ok resp)
        = ⟨"Nature always wears the colors of the spirit.", "Ralph Waldo Emerson"⟩)
    ∧ (∀ (parse : String → Except Unit (List HistoryEvent)) (e : JsError),
      fetchHistoryOnThisDay parse (Except.error e) = [])
    ∧ (∀ resp : GenResponse,
      fetchHistoryOnThisDay (fun _ => Except.error ()) (Except.ok resp) = [])
    ∧ (∀ (parse : String → Except Unit (List Movie)) (e : JsError),
      fetchMoviesNearby parse (Except.error e) = [])
    ∧ (∀ resp : GenResponse,
      fetchMoviesNearby (fun _ => Except.error ()) (Except.ok resp) = [])
    ∧ (∀ (category : String) (e : JsError),
      fetchNearbyPlaces category (Except.error e)
        = ("Unable to load nearby " ++ category ++ ".", []))
    ∧ (∀ fetchResult, fetchLocationNews none fetchResult = [])
    ∧ (∀ apiKey : Option String, fetchLocationNews apiKey (Except.error ()) = [])
    ∧ (∀ (apiKey : Option String) (json : Except Unit (Option (List Article))),
      fetchLocationNews apiKey (Except.ok ⟨false, json⟩) = [])
    ∧ (∀ (apiKey : Option String) (ok : Bool),
      fetchLocationNews apiKey (Except.ok ⟨ok, Except.error ()⟩) = []) := by
  refine ⟨fun e => rfl, fun parse e => rfl, fun resp => rfl, fun parse e => rfl,
    fun resp => rfl, fun parse e => rfl, fun resp => rfl, fun category e => rfl,
    fun fetchResult => rfl, ?_, ?_, ?_⟩
  · intro apiKey
    cases h : jsTruthyStr apiKey <;> simp [fetchLocationNews, h]
  · intro apiKey json
    cases h : jsTruthyStr apiKey <;> simp [fetchLocationNews, h]
  · intro apiKey ok
    cases h : jsTruthyStr apiKey <;> cases ok <;> simp [fetchLocationNews, h]

/-- C9: news results are capped at 4 items — `getAIIntelligence` always,
the grounding-based `fetchWeatherNews` of `part_001` always, and the
grounding fallback of the `part_003` `fetchWeatherNews` (taken whenever
JSON parsing fails), for any number of grounding chunks; a thrown call
returns the empty list. -/
theorem news_capped_at_four :
    (∀ (nowIso : String) (callResult : Except JsError GenResponse),
      (getAIIntelligence nowIso callResult).length ≤ 4)
    ∧ (∀ (host : String → String) (callResult : Except JsError GenResponse),
      (fetchWeatherNewsGroundingOnly host callResult).length ≤ 4)
    ∧ (∀ (host : String → String) (resp : GenResponse),
      (fetchWeatherNewsSchema (fun _ => Except.error ()) host
        (Except.ok resp)).length ≤ 4)
    ∧ (∀ (parse : String → Except Unit (List NewsItem)) (host : String → String)
        (e : JsError), fetchWeatherNewsSchema parse host (Except.error e) = []) := by
  refine ⟨?_, ?_, ?_, fun parse host e => rfl⟩
  · intro nowIso callResult
    cases callResult with
    | error e => simp [getAIIntelligence]
    | ok resp =>
      simp only [getAIIntelligence]
      exact le_trans (List.length_take_le 4 _) (le_refl 4)
  · intro host callResult
    cases callResult with
    | error e => simp [fetchWeatherNewsGroundingOnly]
    | ok resp =>
      simp only [fetchWeatherNewsGroundingOnly]
      exact le_trans (List.length_take_le 4 _) (le_refl 4)
  · intro host resp
    simp only [fetchWeatherNewsSchema]
    cases resp.chunks with
    | none => simp
    | some chunks =>
      simp only
      exact le_trans (List.length_take_le 4 _) (le_refl 4)

end SkyCast
